import Mathlib

/-!
Shallow embedding of `upload_to_release.py`, a script that uploads local files
as assets of a GitHub release and prints a Base64-encoded JSON mapping from
input positions to server-assigned asset identifiers.

The external world (filesystem existence checks and HTTP responses) is modelled
by an oracle: one `FileEnv` per input path giving the outcome of that
iteration's release lookup and upload request.  Python exceptions are modelled
by `Except PyExc`; `requests.exceptions.RequestException` (which, for
requests ≥ 2.27, includes `requests.exceptions.JSONDecodeError` raised by
`response.json()`) is the only class caught by the `try`/`except` in
`upload_to_release`; `KeyError` / `TypeError` / `AttributeError` propagate and
abort the interpreter (exit status 1).
-/

namespace NFU

/-- JSON values as produced by `response.json()` (a parsed Python object). -/
inductive Json where
  | null
  | bool (b : Bool)
  | num (n : Int)
  | str (s : String)
  | arr (xs : List Json)
  | obj (fields : List (String × Json))

/-- The Python exceptions relevant to the script.  `requestException` stands
for the whole `requests.exceptions.RequestException` hierarchy (the class
caught on line 91 of the source), including `JSONDecodeError`. -/
inductive PyExc where
  | requestException
  | keyError
  | typeError
  | attributeError
deriving DecidableEq

/-- `release['upload_url']` — Python subscript on a parsed JSON value: on a
dict, `KeyError` when the key is absent; on any non-dict, `TypeError`. -/
def pyGetItem : Json → String → Except PyExc Json
  | .obj fs, k =>
    match fs.lookup k with
    | some v => .ok v
    | none => .error .keyError
  | _, _ => .error .typeError

/-- `….split('{')[0]` — valid only on a Python `str` (otherwise
`AttributeError`); `split` never returns an empty list, so `[0]` is total. -/
def pySplitBrace : Json → Except PyExc String
  | .str s => .ok ((s.splitOn "\x7b").headD s)
  | _ => .error .attributeError

/-- `result.get('id')` — `dict.get`, returning `None` when the key is absent;
`AttributeError` on a non-dict.  A JSON `null` value also becomes Python
`None`, which we collapse into `none` (observably identical downstream). -/
def pyDictGet : Json → String → Except PyExc (Option Json)
  | .obj fs, k =>
    match fs.lookup k with
    | some .null => .ok none
    | v => .ok v
  | _, _ => .error .attributeError

/-- Splitting a character list on `'/'` (list-level `str.split('/')`). -/
def splitOnSlash : List Char → List (List Char)
  | [] => [[]]
  | c :: rest =>
    match splitOnSlash rest with
    | [] => [[]]
    | comp :: comps =>
      if c = '/' then [] :: comp :: comps else (c :: comp) :: comps

/-- `Path(file_path).name` on POSIX: spurious slashes and single-dot
components are collapsed, and the name is the last remaining component
(empty for paths like `'/'` or `'.'`). -/
def pathName (p : String) : String :=
  let comps := (splitOnSlash p.data).filter (fun comp => comp ≠ [] && comp ≠ ['.'])
  String.mk (comps.getLast?.getD [])

/-- UTF-8 encoding of one scalar value (`str.encode('utf-8')`, per char). -/
def utf8Bytes (c : Char) : List Nat :=
  if c.toNat < 0x80 then [c.toNat]
  else if c.toNat < 0x800 then [0xc0 + c.toNat / 64, 0x80 + c.toNat % 64]
  else if c.toNat < 0x10000 then
    [0xe0 + c.toNat / 4096, 0x80 + c.toNat / 64 % 64, 0x80 + c.toNat % 64]
  else
    [0xf0 + c.toNat / 0x40000, 0x80 + c.toNat / 4096 % 64,
      0x80 + c.toNat / 64 % 64, 0x80 + c.toNat % 64]

/-- UTF-8 encoding of a whole string, as a byte list. -/
def strUtf8 (s : String) : List Nat :=
  (s.data.map utf8Bytes).flatten

mutual

/-- UTF-8 decoding (`bytes.decode('utf-8')`), strict: `none` on ill-formed
input.  The lead byte selects how many continuation bytes follow. -/
def utf8DecodeList : List Nat → Option (List Char)
  | [] => some []
  | b0 :: rest =>
    if b0 < 0x80 then (utf8DecodeList rest).map (Char.ofNat b0 :: ·)
    else if b0 < 0xc0 then none
    else if b0 < 0xe0 then utf8DecodeCont1 b0 rest
    else if b0 < 0xf0 then utf8DecodeCont2 b0 rest
    else if b0 < 0xf8 then utf8DecodeCont3 b0 rest
    else none
termination_by l => (l.length, 1)

/-- One continuation byte (2-byte sequences). -/
def utf8DecodeCont1 (b0 : Nat) : List Nat → Option (List Char)
  | b1 :: rest' =>
    if 0x80 ≤ b1 ∧ b1 < 0xc0 then
      (utf8DecodeList rest').map (Char.ofNat ((b0 - 0xc0) * 64 + (b1 - 0x80)) :: ·)
    else none
  | [] => none
termination_by l => (l.length, 0)

/-- Two continuation bytes (3-byte sequences). -/
def utf8DecodeCont2 (b0 : Nat) : List Nat → Option (List Char)
  | b1 :: b2 :: rest' =>
    if (0x80 ≤ b1 ∧ b1 < 0xc0) ∧ (0x80 ≤ b2 ∧ b2 < 0xc0) then
      (utf8DecodeList rest').map
        (Char.ofNat ((b0 - 0xe0) * 4096 + (b1 - 0x80) * 64 + (b2 - 0x80)) :: ·)
    else none
  | _ => none
termination_by l => (l.length, 0)

/-- Three continuation bytes (4-byte sequences). -/
def utf8DecodeCont3 (b0 : Nat) : List Nat → Option (List Char)
  | b1 :: b2 :: b3 :: rest' =>
    if (0x80 ≤ b1 ∧ b1 < 0xc0) ∧ (0x80 ≤ b2 ∧ b2 < 0xc0) ∧ (0x80 ≤ b3 ∧ b3 < 0xc0) then
      (utf8DecodeList rest').map
        (Char.ofNat
          ((b0 - 0xf0) * 0x40000 + (b1 - 0x80) * 4096 + (b2 - 0x80) * 64 + (b3 - 0x80)) :: ·)
    else none
  | _ => none
termination_by l => (l.length, 0)

end

/-- Uppercase hex digit, used by `urllib.parse.quote` for `%XX` escapes. -/
def hexDigitUpper (n : Nat) : Char :=
  if n < 10 then Char.ofNat (48 + n) else Char.ofNat (55 + n)

/-- The bytes that `urllib.parse.quote` leaves unescaped with `safe=''`:
ASCII letters, digits, and `_.-~`. -/
def isUnreservedByte (b : Nat) : Bool :=
  (65 ≤ b && b ≤ 90) || (97 ≤ b && b ≤ 122) || (48 ≤ b && b ≤ 57) ||
    b = 45 || b = 46 || b = 95 || b = 126

/-- `quote`, per byte: an unreserved byte stays a literal character, any
other byte becomes `%XX` with uppercase hex. -/
def quoteByte (b : Nat) : List Char :=
  if isUnreservedByte b then [Char.ofNat b]
  else ['%', hexDigitUpper (b / 16), hexDigitUpper (b % 16)]

/-- `urllib.parse.quote(s, safe='')` (source line 64): UTF-8 encode, then
percent-escape every byte that is not unreserved. -/
def quote (s : String) : String :=
  String.mk (((strUtf8 s).map quoteByte).flatten)

/-- Hex digit value, accepting both cases. -/
def hexVal (c : Char) : Option Nat :=
  let n := c.toNat
  if 48 ≤ n ∧ n ≤ 57 then some (n - 48)
  else if 65 ≤ n ∧ n ≤ 70 then some (n - 55)
  else if 97 ≤ n ∧ n ≤ 102 then some (n - 87)
  else none

mutual

/-- Modelled from the spec: percent-decoding of a query-parameter value, the
inverse operation named by the spec's round-trip property.  The decoder is not
part of `src` (it runs on the receiving server); `%XX` pairs become bytes,
other characters contribute their UTF-8 bytes, and a stray `'%'` is rejected. -/
def percentDecodeChars : List Char → Option (List Nat)
  | [] => some []
  | c :: rest =>
    if c = '%' then percentDecodeEscape rest
    else (percentDecodeChars rest).map (fun bs => utf8Bytes c ++ bs)
termination_by l => (l.length, 1)

/-- The two hex digits following a `'%'`. -/
def percentDecodeEscape : List Char → Option (List Nat)
  | h1 :: h2 :: rest' =>
    match hexVal h1, hexVal h2 with
    | some v1, some v2 => (percentDecodeChars rest').map (fun bs => (v1 * 16 + v2) :: bs)
    | _, _ => none
  | _ => none
termination_by l => (l.length, 0)

end

/-- Modelled from the spec: full percent-decoding of a string back to a
string — percent-decode to bytes, then UTF-8 decode. -/
def unquote (s : String) : Option String :=
  (percentDecodeChars s.data).bind (fun bs => (utf8DecodeList bs).map String.mk)

/-- The base64 alphabet, `A-Za-z0-9+/`, by sextet value. -/
def sextetChar (n : Nat) : Char :=
  if n < 26 then Char.ofNat (65 + n)
  else if n < 52 then Char.ofNat (97 + (n - 26))
  else if n < 62 then Char.ofNat (48 + (n - 52))
  else if n = 62 then '+' else '/'

/-- Sextet value of a base64 alphabet character. -/
def charToSextet (c : Char) : Nat :=
  let n := c.toNat
  if 65 ≤ n ∧ n ≤ 90 then n - 65
  else if 97 ≤ n ∧ n ≤ 122 then n - 97 + 26
  else if 48 ≤ n ∧ n ≤ 57 then n - 48 + 52
  else if c = '+' then 62 else 63

/-- `base64.b64encode`: bytes to base64 characters, `=`-padded. -/
def b64encodeBytes : List Nat → List Char
  | [] => []
  | [a] => [sextetChar (a / 4), sextetChar (a % 4 * 16), '=', '=']
  | [a, b] =>
    [sextetChar (a / 4), sextetChar (a % 4 * 16 + b / 16), sextetChar (b % 16 * 4), '=']
  | a :: b :: c :: rest =>
    sextetChar (a / 4) :: sextetChar (a % 4 * 16 + b / 16) ::
      sextetChar (b % 16 * 4 + c / 64) :: sextetChar (c % 64) :: b64encodeBytes rest

/-- `base64.b64decode`: base64 characters back to bytes (`none` on input that
is not valid `=`-padded base64 of the shapes `b64encodeBytes` emits). -/
def b64decodeChars : List Char → Option (List Nat)
  | [] => some []
  | c1 :: c2 :: c3 :: c4 :: rest =>
    if c3 = '=' then
      if c4 = '=' ∧ rest = [] then
        some [charToSextet c1 * 4 + charToSextet c2 / 16]
      else none
    else if c4 = '=' then
      if rest = [] then
        some [charToSextet c1 * 4 + charToSextet c2 / 16,
              charToSextet c2 % 16 * 16 + charToSextet c3 / 4]
      else none
    else
      (b64decodeChars rest).map
        (fun bs =>
          (charToSextet c1 * 4 + charToSextet c2 / 16) ::
            (charToSextet c2 % 16 * 16 + charToSextet c3 / 4) ::
            (charToSextet c3 % 4 * 64 + charToSextet c4) :: bs)
  | _ => none

/-- One escaped character of `json.dumps(..., ensure_ascii=True)` output:
everything outside printable ASCII is `\uXXXX`-escaped (lowercase hex,
surrogate pairs above U+FFFF); `"` and `\` and the short control escapes as in
CPython's `py_encode_basestring_ascii`. -/
def jsonEscapeChar (c : Char) : String :=
  if c = '\\' then "\\\\"
  else if c = '"' then "\\\""
  else if 0x20 ≤ c.toNat ∧ c.toNat ≤ 0x7e then String.singleton c
  else if c.toNat = 8 then "\\b"
  else if c = '\t' then "\\t"
  else if c = '\n' then "\\n"
  else if c.toNat = 12 then "\\f"
  else if c.toNat = 13 then "\\r"
  else if c.toNat < 0x10000 then
    "\\u" ++ String.mk [hexDigitLower (c.toNat / 4096 % 16), hexDigitLower (c.toNat / 256 % 16),
      hexDigitLower (c.toNat / 16 % 16), hexDigitLower (c.toNat % 16)]
  else
    let n := c.toNat - 0x10000
    let hi := 0xd800 + n / 0x400
    let lo := 0xdc00 + n % 0x400
    "\\u" ++ String.mk [hexDigitLower (hi / 4096 % 16), hexDigitLower (hi / 256 % 16),
      hexDigitLower (hi / 16 % 16), hexDigitLower (hi % 16)] ++
    "\\u" ++ String.mk [hexDigitLower (lo / 4096 % 16), hexDigitLower (lo / 256 % 16),
      hexDigitLower (lo / 16 % 16), hexDigitLower (lo % 16)]
where
  hexDigitLower (n : Nat) : Char :=
    if n < 10 then Char.ofNat (48 + n) else Char.ofNat (87 + n)

/-- A JSON string literal as `json.dumps` prints it. -/
def serializeStr (s : String) : String :=
  "\"" ++ String.join (s.data.map jsonEscapeChar) ++ "\""

mutual

/-- `json.dumps(v, ensure_ascii=True)` with the default separators. -/
def serializeJson : Json → String
  | .null => "null"
  | .bool true => "true"
  | .bool false => "false"
  | .num n => toString n
  | .str s => serializeStr s
  | .arr xs => "[" ++ serializeJsonList xs ++ "]"
  | .obj fs => "\x7b" ++ serializeJsonFields fs ++ "\x7d"

/-- Array elements, `", "`-separated. -/
def serializeJsonList : List Json → String
  | [] => ""
  | [x] => serializeJson x
  | x :: y :: rest => serializeJson x ++ ", " ++ serializeJsonList (y :: rest)

/-- Object fields, `", "`-separated, `": "` after each key. -/
def serializeJsonFields : List (String × Json) → String
  | [] => ""
  | [(k, v)] => serializeStr k ++ ": " ++ serializeJson v
  | (k, v) :: f :: rest =>
      serializeStr k ++ ": " ++ serializeJson v ++ ", " ++ serializeJsonFields (f :: rest)

end

/-- A Python value that is either a JSON value or `None` (as stored in the
`asset_id` slot), serialized as `json.dumps` would. -/
def serializeOptJson : Option Json → String
  | none => "null"
  | some j => serializeJson j

/-- `original_name` slot: a `str` or `None`. -/
def serializeOptStr : Option String → String
  | none => "null"
  | some s => serializeStr s

/-- One entry of `filename_mapping` (source lines 119-123):
`{'index': idx, 'original_name': original_name, 'asset_id': asset_id}`. -/
structure MappingEntry where
  index : Nat
  original_name : Option String
  asset_id : Option Json

/-- `json.dumps` of one mapping entry, keys in insertion order. -/
def serializeEntry (e : MappingEntry) : String :=
  "\x7b\"index\": " ++ toString e.index ++ ", \"original_name\": " ++
    serializeOptStr e.original_name ++ ", \"asset_id\": " ++
    serializeOptJson e.asset_id ++ "\x7d"

/-- `json.dumps(filename_mapping, ensure_ascii=True)` (source line 133). -/
def serializeMapping (m : List MappingEntry) : String :=
  "[" ++ String.intercalate ", " (m.map serializeEntry) ++ "]"

/-- An HTTP response as the script observes it: status code, the outcome of
`.json()` (`none` = body not parseable, raising `JSONDecodeError`), and
`.text` for error messages. -/
structure Response where
  status : Nat
  jsonBody : Option Json
  text : String

/-- The external world of one loop iteration: whether `os.path.exists` holds
for the path, and the results of the two HTTP calls (`.error` = the transport
raised `requests.exceptions.RequestException` after the retry layer gave up). -/
structure FileEnv where
  pathExists : Bool
  releaseResponse : Except Unit Response
  uploadResponse : Except Unit Response

/-- The triple returned by `upload_to_release`:
`(success, original_filename, asset_id)`. -/
structure UploadResult where
  success : Bool
  original_name : Option String
  asset_id : Option Json

/-- The `try:` block of `upload_to_release` (source lines 50-89), before the
`except requests.exceptions.RequestException` handler is applied.  The MIME
guess (`mimetypes.guess_type`, total, used only in a request header) and the
header/URL assembly carry no control flow and are not tracked; `open(...)`
is assumed to succeed whenever `os.path.exists` held (the oracle does not
model a file disappearing between the check and the read). -/
def tryBody (env : FileEnv) (file_path : String) : Except PyExc UploadResult :=
  match env.releaseResponse with
  | .error _ => .error .requestException
  | .ok response =>
    if response.status ≠ 200 then .ok ⟨false, none, none⟩
    else
      match response.jsonBody with
      | none => .error .requestException
      | some release =>
        match pyGetItem release "upload_url" with
        | .error e => .error e
        | .ok uurlVal =>
          match pySplitBrace uurlVal with
          | .error e => .error e
          | .ok _upload_url =>
            let filename := pathName file_path
            let _encoded_filename := quote filename
            match env.uploadResponse with
            | .error _ => .error .requestException
            | .ok uresp =>
              if uresp.status = 200 ∨ uresp.status = 201 then
                match uresp.jsonBody with
                | none => .error .requestException
                | some result =>
                  match pyDictGet result "id" with
                  | .error e => .error e
                  | .ok asset_id => .ok ⟨true, some filename, asset_id⟩
              else .ok ⟨false, none, none⟩

/-- `upload_to_release` (source lines 35-93): the `try` body with only
`requests.exceptions.RequestException` caught and turned into the failure
triple; every other exception propagates to the caller. -/
def upload_to_release (env : FileEnv) (file_path : String) : Except PyExc UploadResult :=
  match tryBody env file_path with
  | .error .requestException => .ok ⟨false, none, none⟩
  | .error e => .error e
  | .ok r => .ok r

/-- The `__main__` loop's mutable locals, plus two instrumentation counters
(`getCount` / `postCount`: how many release-lookup GETs and upload POSTs have
been issued so far — these are not program variables, they record the HTTP
trace so that request-counting claims can be stated). -/
structure LoopState where
  success_count : Nat
  fail_count : Nat
  filename_mapping : List MappingEntry
  getCount : Nat
  postCount : Nat

/-- Control reaches `session.post` in `upload_to_release` exactly when the
release lookup returned (no transport error) with status 200, a parseable
body, and a string `upload_url` field. -/
def releaseResolved (env : FileEnv) : Bool :=
  match env.releaseResponse with
  | .error _ => false
  | .ok r =>
    r.status = 200 &&
      match r.jsonBody with
      | none => false
      | some j =>
        match pyGetItem j "upload_url" with
        | .ok (.str _) => true
        | _ => false

/-- One iteration of the `__main__` loop (source lines 110-125) on input
`t = (file_path, env)`: missing file counts a failure without any network
call; otherwise `upload_to_release` runs, its uncaught exceptions abort the
loop (carrying the locals at the moment of the abort). -/
def loopStep (idx : Nat) (st : LoopState) (t : String × FileEnv) :
    Except (PyExc × LoopState) LoopState :=
  if t.2.pathExists = false then
    .ok { st with fail_count := st.fail_count + 1 }
  else
    let st1 := { st with
      getCount := st.getCount + 1,
      postCount := st.postCount + (if releaseResolved t.2 then 1 else 0) }
    match upload_to_release t.2 t.1 with
    | .error e => .error (e, st1)
    | .ok r =>
      if r.success then
        .ok { st1 with
          success_count := st1.success_count + 1,
          filename_mapping := st1.filename_mapping ++ [⟨idx, r.original_name, r.asset_id⟩] }
      else
        .ok { st1 with fail_count := st1.fail_count + 1 }

/-- The whole `for idx, file_path in enumerate(file_paths)` loop. -/
def runLoop : Nat → LoopState → List (String × FileEnv) → Except (PyExc × LoopState) LoopState
  | _, st, [] => .ok st
  | idx, st, t :: ts =>
    match loopStep idx st t with
    | .error e => .error e
    | .ok st' => runLoop (idx + 1) st' ts

/-- Initial values of the loop locals. -/
def initState : LoopState := ⟨0, 0, [], 0, 0⟩

/-- Outcome of a whole process run: usage error, loop aborted by an uncaught
exception, or loop completed. -/
inductive RunResult where
  | usage
  | aborted (e : PyExc) (st : LoopState)
  | completed (st : LoopState)

/-- The `__main__` block (source lines 95-138): `sys.argv` (program name
included) is checked against 5, `file_paths = sys.argv[5:]`, then the loop
runs with `envs` as the per-iteration oracle. -/
def pyMain (argv : List String) (envs : List FileEnv) : RunResult :=
  if argv.length < 5 then .usage
  else
    match runLoop 0 initState ((argv.drop 5).zip envs) with
    | .error (e, st) => .aborted e st
    | .ok st => .completed st

/-- The process exit status: 1 for the usage path (`sys.exit(1)`), 1 when an
uncaught exception kills the interpreter, else `0 if fail_count == 0 else 1`
(source line 138). -/
def exitCode : RunResult → Nat
  | .usage => 1
  | .aborted _ _ => 1
  | .completed st => if st.fail_count = 0 then 0 else 1

/-- The summary line printed after the loop (source line 127). -/
def summaryLine (st : LoopState) : String :=
  "\n📊 Results: " ++ toString st.success_count ++ " succeeded, " ++
    toString st.fail_count ++ " failed"

/-- The Base64 payload printed between the sentinel lines (source lines
133-135): `base64.b64encode(json.dumps(filename_mapping).encode('utf-8'))`. -/
def mappingPayload (st : LoopState) : String :=
  String.mk (b64encodeBytes (strUtf8 (serializeMapping st.filename_mapping)))

/-- Everything printed after the loop: the summary, then — only when
`filename_mapping` is non-empty — the sentinel-wrapped payload
(source lines 127-136). -/
def tailOutput (st : LoopState) : List String :=
  [summaryLine st] ++
    (if st.filename_mapping.isEmpty then []
     else ["\n===FILENAME_MAPPING_START===", mappingPayload st, "===FILENAME_MAPPING_END==="])

/-- The five fields passed to `urllib3.util.retry.Retry` by
`create_retry_session` (source lines 20-27). -/
structure RetryConfig where
  total : Nat
  read : Nat
  connect : Nat
  backoff_factor : Nat
  status_forcelist : List Nat
  allowed_methods : List String

/-- `create_retry_session(retries, backoff_factor, status_forcelist)`
(source lines 13-33); a `None` forcelist defaults to
`[429, 500, 502, 503, 504]`. -/
def create_retry_session (retries : Nat) (backoff_factor : Nat)
    (status_forcelist : Option (List Nat)) : RetryConfig :=
  { total := retries
    read := retries
    connect := retries
    backoff_factor := backoff_factor
    status_forcelist := status_forcelist.getD [429, 500, 502, 503, 504]
    allowed_methods := ["HEAD", "GET", "PUT", "DELETE", "OPTIONS", "TRACE", "POST"] }

/-- The configuration actually used by `upload_to_release` (source line 41):
`create_retry_session()` with all parameters left at their defaults. -/
def sessionRetryConfig : RetryConfig := create_retry_session 5 1 none

/-- Modelled from the spec: the delivery behavior of the retry layer
(`urllib3` `Retry`, not part of `src`) for one logical request, per spec
§4.1 — given the per-attempt status sequence, a status in the forcelist
consumes one retry and the next attempt is made; a status outside the
forcelist is returned to the caller as a normal response; exhausting the
retry budget (or running out of attempts) surfaces an error (`none`). -/
def retryDeliver (forcelist : List Nat) (fuel : Nat) (attempts : List Nat) : Option Nat :=
  match attempts with
  | [] => none
  | s :: rest =>
    if s ∈ forcelist then
      match fuel with
      | 0 => none
      | f + 1 => retryDeliver forcelist f rest
    else some s
termination_by structural attempts

/-- Whether an iteration's `upload_to_release` call raises an exception that
the `except` clause does not catch (aborting the whole run). -/
def taskRaises (t : String × FileEnv) : Bool :=
  t.2.pathExists &&
    match upload_to_release t.2 t.1 with
    | .error _ => true
    | .ok _ => false

/-- Whether an iteration counts as a success (file exists and the upload
returned the success triple). -/
def taskSucceeds (t : String × FileEnv) : Bool :=
  t.2.pathExists &&
    match upload_to_release t.2 t.1 with
    | .ok r => r.success
    | .error _ => false

/-- The mapping entry an iteration appends, if any. -/
def entryOfTask (it : Nat × (String × FileEnv)) : Option MappingEntry :=
  if it.2.2.pathExists then
    match upload_to_release it.2.2 it.2.1 with
    | .ok r => if r.success then some ⟨it.1, r.original_name, r.asset_id⟩ else none
    | .error _ => none
  else none

/-- The mapping entries produced by the tasks `ts` when enumeration starts at
`idx`. -/
def mappingSpec (idx : Nat) (ts : List (String × FileEnv)) : List MappingEntry :=
  (ts.enumFrom idx).filterMap entryOfTask

/-- The final loop locals of a run over `ts` that completes without an
uncaught exception, starting from `st` with enumeration from `idx`. -/
def runSpec (idx : Nat) (st : LoopState) (ts : List (String × FileEnv)) : LoopState :=
  { success_count := st.success_count + ts.countP taskSucceeds
    fail_count := st.fail_count + ts.countP (fun t => !taskSucceeds t)
    filename_mapping := st.filename_mapping ++ mappingSpec idx ts
    getCount := st.getCount + ts.countP (fun t => t.2.pathExists)
    postCount := st.postCount + ts.countP (fun t => t.2.pathExists && releaseResolved t.2) }

/-- The mapping-payload contract for a final state `st` of a run over `n`
input paths with task list `tasks`: the printed payload Base64-decodes to the
UTF-8 bytes of the JSON serialization of `filename_mapping`; the mapping has
exactly `success_count` records; record indices lie in `0..n-1` and strictly
increase (original input order); and each record carries the zero-based input
index, the original (un-encoded) basename and the asset id of the succeeded
upload at that index. -/
def MappingPayloadCorrect (n : Nat) (tasks : List (String × FileEnv))
    (st : LoopState) : Prop :=
  b64decodeChars (mappingPayload st).data =
      some (strUtf8 (serializeMapping st.filename_mapping)) ∧
  st.filename_mapping.length = st.success_count ∧
  (∀ e ∈ st.filename_mapping, e.index < n) ∧
  st.filename_mapping.Pairwise (fun a b => a.index < b.index) ∧
  (∀ e ∈ st.filename_mapping, ∃ t, tasks[e.index]? = some t ∧
    t.2.pathExists = true ∧
    upload_to_release t.2 t.1 = .ok ⟨true, some (pathName t.1), e.asset_id⟩ ∧
    e.original_name = some (pathName t.1))

/-- Sample oracle: the file exists, the release lookup and the upload both
succeed, and the created asset has id 7. -/
def goodEnv : FileEnv :=
  { pathExists := true
    releaseResponse := .ok ⟨200,
      some (.obj [("upload_url", .str "https://uploads.example/assets\x7b?name,label\x7d")]), ""⟩
    uploadResponse := .ok ⟨201, some (.obj [("id", .num 7)]), ""⟩ }

/-- Sample oracle: the release lookup returns 200 but its JSON object has no
`upload_url` key, so `release['upload_url']` raises `KeyError`. -/
def missingUploadUrlEnv : FileEnv :=
  { pathExists := true
    releaseResponse := .ok ⟨200, some (.obj [("name", .str "v1")]), ""⟩
    uploadResponse := .ok ⟨201, some (.obj [("id", .num 7)]), ""⟩ }

/-- Sample oracle: the file does not exist locally (no network call happens). -/
def missingFileEnv : FileEnv :=
  { pathExists := false
    releaseResponse := .ok ⟨200, none, ""⟩
    uploadResponse := .ok ⟨200, none, ""⟩ }

/-- Sample oracle: the release lookup returns 404 (nonexistent tag). -/
def notFoundEnv : FileEnv :=
  { pathExists := true
    releaseResponse := .ok ⟨404, none, "Not Found"⟩
    uploadResponse := .ok ⟨200, none, ""⟩ }

/-- Sample oracle: the upload is answered 201 but the response body has no
`id` field. -/
def noIdEnv : FileEnv :=
  { pathExists := true
    releaseResponse := .ok ⟨200, some (.obj [("upload_url", .str "u")]), ""⟩
    uploadResponse := .ok ⟨201, some (.obj [("ok", .bool true)]), ""⟩ }

/-! ### Helper lemmas: characters and UTF-8 -/

theorem charToNat_lt (c : Char) : c.toNat < 0x110000 := by
  rcases c.valid with h | ⟨_, h2⟩
  · exact Nat.lt_trans h (by norm_num)
  · exact h2

theorem toNat_ofNat_valid {n : Nat} (h : n.isValidChar) : (Char.ofNat n).toNat = n := by
  unfold Char.ofNat
  rw [dif_pos h]
  rfl

theorem utf8Bytes_lt (c : Char) : ∀ b ∈ utf8Bytes c, b < 256 := by
  have h := charToNat_lt c
  unfold utf8Bytes
  split_ifs with h1 h2 h3
  · intro b hb
    simp only [List.mem_singleton] at hb
    omega
  · intro b hb
    simp only [List.mem_cons, List.not_mem_nil, or_false] at hb
    rcases hb with rfl | rfl <;> omega
  · intro b hb
    simp only [List.mem_cons, List.not_mem_nil, or_false] at hb
    rcases hb with rfl | rfl | rfl <;> omega
  · intro b hb
    simp only [List.mem_cons, List.not_mem_nil, or_false] at hb
    rcases hb with rfl | rfl | rfl | rfl <;> omega

theorem strUtf8_lt (s : String) : ∀ b ∈ strUtf8 s, b < 256 := by
  intro b hb
  simp only [strUtf8, List.mem_flatten, List.mem_map] at hb
  obtain ⟨l, ⟨c, _, rfl⟩, hbl⟩ := hb
  exact utf8Bytes_lt c b hbl

theorem utf8DecodeList_append (c : Char) (rest : List Nat) :
    utf8DecodeList (utf8Bytes c ++ rest) = (utf8DecodeList rest).map (c :: ·) := by
  have hlt := charToNat_lt c
  by_cases h1 : c.toNat < 0x80
  · simp only [utf8Bytes, if_pos h1, List.cons_append, List.nil_append]
    rw [utf8DecodeList]
    rw [if_pos h1, Char.ofNat_toNat]
  · by_cases h2 : c.toNat < 0x800
    · simp only [utf8Bytes, if_neg h1, if_pos h2, List.cons_append, List.nil_append]
      rw [utf8DecodeList]
      rw [if_neg (by omega), if_neg (by omega), if_pos (by omega)]
      rw [utf8DecodeCont1]
      rw [if_pos (by constructor <;> omega)]
      have hv : (0xc0 + c.toNat / 64 - 0xc0) * 64 + (0x80 + c.toNat % 64 - 0x80) = c.toNat := by
        omega
      rw [hv, Char.ofNat_toNat]
    · by_cases h3 : c.toNat < 0x10000
      · simp only [utf8Bytes, if_neg h1, if_neg h2, if_pos h3, List.cons_append, List.nil_append]
        rw [utf8DecodeList]
        rw [if_neg (by omega), if_neg (by omega), if_neg (by omega), if_pos (by omega)]
        rw [utf8DecodeCont2]
        rw [if_pos (by refine ⟨⟨?_, ?_⟩, ?_, ?_⟩ <;> omega)]
        have hv : (0xe0 + c.toNat / 4096 - 0xe0) * 4096 +
            (0x80 + c.toNat / 64 % 64 - 0x80) * 64 + (0x80 + c.toNat % 64 - 0x80) = c.toNat := by
          omega
        rw [hv, Char.ofNat_toNat]
      · simp only [utf8Bytes, if_neg h1, if_neg h2, if_neg h3, List.cons_append, List.nil_append]
        rw [utf8DecodeList]
        rw [if_neg (by omega), if_neg (by omega), if_neg (by omega), if_neg (by omega),
          if_pos (by omega)]
        rw [utf8DecodeCont3]
        rw [if_pos (by refine ⟨⟨?_, ?_⟩, ⟨?_, ?_⟩, ?_, ?_⟩ <;> omega)]
        have hv : (0xf0 + c.toNat / 0x40000 - 0xf0) * 0x40000 +
            (0x80 + c.toNat / 4096 % 64 - 0x80) * 4096 +
            (0x80 + c.toNat / 64 % 64 - 0x80) * 64 + (0x80 + c.toNat % 64 - 0x80) = c.toNat := by
          omega
        rw [hv, Char.ofNat_toNat]

theorem utf8DecodeList_flatten (cs : List Char) :
    utf8DecodeList ((cs.map utf8Bytes).flatten) = some cs := by
  induction cs with
  | nil => simp only [List.map_nil, List.flatten_nil, utf8DecodeList]
  | cons c rest ih =>
    simp only [List.map_cons, List.flatten_cons, utf8DecodeList_append, ih, Option.map_some']

theorem strUtf8_decode (s : String) : utf8DecodeList (strUtf8 s) = some s.data :=
  utf8DecodeList_flatten s.data

/-! ### Helper lemmas: percent-encoding round trip -/

theorem isUnreservedByte_facts {b : Nat} (h : isUnreservedByte b = true) :
    b < 0x80 ∧ b ≠ 37 := by
  unfold isUnreservedByte at h
  simp only [Bool.or_eq_true, Bool.and_eq_true, decide_eq_true_eq] at h
  omega

theorem hexVal_hexDigitUpper {n : Nat} (h : n < 16) : hexVal (hexDigitUpper n) = some n := by
  have key : ∀ m : Fin 16, hexVal (hexDigitUpper m.val) = some m.val := by decide
  exact key ⟨n, h⟩

theorem percentDecode_quoteBytes (bs : List Nat) (h : ∀ b ∈ bs, b < 256) :
    percentDecodeChars ((bs.map quoteByte).flatten) = some bs := by
  induction bs with
  | nil => simp only [List.map_nil, List.flatten_nil, percentDecodeChars]
  | cons b rest ih =>
    have hb : b < 256 := h b (List.mem_cons_self b rest)
    have hrest := ih (fun x hx => h x (List.mem_cons_of_mem _ hx))
    simp only [List.map_cons, List.flatten_cons]
    by_cases hu : isUnreservedByte b
    · obtain ⟨hb128, hb37⟩ := isUnreservedByte_facts hu
      have hvalid : b.isValidChar := Or.inl (by omega)
      have htn : (Char.ofNat b).toNat = b := toNat_ofNat_valid hvalid
      have hne : ¬(Char.ofNat b = '%') := by
        intro heq
        have h37 : ('%').toNat = 37 := rfl
        rw [heq, h37] at htn
        exact hb37 htn.symm
      simp only [quoteByte, if_pos hu, List.cons_append, List.nil_append]
      rw [percentDecodeChars]
      rw [if_neg hne, hrest]
      have hbytes : utf8Bytes (Char.ofNat b) = [b] := by
        unfold utf8Bytes
        rw [htn, if_pos (by omega)]
      simp [hbytes]
    · simp only [quoteByte, if_neg hu, List.cons_append, List.nil_append]
      rw [percentDecodeChars]
      rw [if_pos rfl]
      rw [percentDecodeEscape]
      rw [hexVal_hexDigitUpper (by omega : b / 16 < 16),
        hexVal_hexDigitUpper (by omega : b % 16 < 16), hrest]
      have hv : b / 16 * 16 + b % 16 = b := by omega
      simp [hv]

theorem unquote_quote (s : String) : unquote (quote s) = some s := by
  have hdata : (quote s).data = ((strUtf8 s).map quoteByte).flatten := rfl
  unfold unquote
  rw [hdata, percentDecode_quoteBytes _ (strUtf8_lt s)]
  show (utf8DecodeList (strUtf8 s)).map String.mk = some s
  rw [strUtf8_decode]
  rfl

/-! ### Helper lemmas: base64 round trip -/

theorem charToSextet_sextetChar {n : Nat} (h : n < 64) : charToSextet (sextetChar n) = n := by
  have key : ∀ m : Fin 64, charToSextet (sextetChar m.val) = m.val := by decide
  exact key ⟨n, h⟩

theorem sextetChar_ne_pad {n : Nat} (h : n < 64) : sextetChar n ≠ '=' := by
  have key : ∀ m : Fin 64, sextetChar m.val ≠ '=' := by decide
  exact key ⟨n, h⟩

theorem b64_roundtrip (bs : List Nat) (h : ∀ b ∈ bs, b < 256) :
    b64decodeChars (b64encodeBytes bs) = some bs := by
  induction bs using b64encodeBytes.induct with
  | case1 => rfl
  | case2 a =>
    have ha : a < 256 := h a (by simp)
    rw [b64encodeBytes, b64decodeChars, if_pos rfl, if_pos ⟨rfl, rfl⟩,
      charToSextet_sextetChar (by omega), charToSextet_sextetChar (by omega)]
    have hv : a / 4 * 4 + a % 4 * 16 / 16 = a := by omega
    rw [hv]
  | case3 a b =>
    have ha : a < 256 := h a (by simp)
    have hb : b < 256 := h b (by simp)
    rw [b64encodeBytes, b64decodeChars, if_neg (sextetChar_ne_pad (by omega)), if_pos rfl,
      if_pos rfl, charToSextet_sextetChar (by omega), charToSextet_sextetChar (by omega),
      charToSextet_sextetChar (by omega)]
    have hv1 : a / 4 * 4 + (a % 4 * 16 + b / 16) / 16 = a := by omega
    have hv2 : (a % 4 * 16 + b / 16) % 16 * 16 + b % 16 * 4 / 4 = b := by omega
    rw [hv1, hv2]
  | case4 a b c rest ih =>
    have ha : a < 256 := h a (by simp)
    have hb : b < 256 := h b (by simp)
    have hc : c < 256 := h c (by simp)
    have hrest := ih (fun x hx => h x (by simp [hx]))
    rw [b64encodeBytes, b64decodeChars, if_neg (sextetChar_ne_pad (by omega)),
      if_neg (sextetChar_ne_pad (by omega)), hrest,
      charToSextet_sextetChar (by omega), charToSextet_sextetChar (by omega),
      charToSextet_sextetChar (by omega), charToSextet_sextetChar (by omega)]
    have hv1 : a / 4 * 4 + (a % 4 * 16 + b / 16) / 16 = a := by omega
    have hv2 : (a % 4 * 16 + b / 16) % 16 * 16 + (b % 16 * 4 + c / 64) / 4 = b := by omega
    have hv3 : (b % 16 * 4 + c / 64) % 4 * 64 + c % 64 = c := by omega
    rw [hv1, hv2, hv3]
    rfl

/-- Base64 round trip at the `String` level, for the payload the script
prints. -/
theorem b64_roundtrip_str (bs : List Nat) (h : ∀ b ∈ bs, b < 256) :
    b64decodeChars (String.mk (b64encodeBytes bs)).data = some bs :=
  b64_roundtrip bs h

/-! ### Helper lemmas: the upload function and the orchestrator loop -/

theorem tryBody_ok_shape (env : FileEnv) (p : String) (r : UploadResult)
    (h : tryBody env p = .ok r) :
    r = ⟨false, none, none⟩ ∨ r = ⟨true, some (pathName p), r.asset_id⟩ := by
  simp only [tryBody] at h
  repeat' split at h
  all_goals first
    | (injection h with h; subst h; simp)
    | exact Except.noConfusion h

theorem upload_ok_shape (env : FileEnv) (p : String) (r : UploadResult)
    (h : upload_to_release env p = .ok r) :
    r = ⟨false, none, none⟩ ∨ r = ⟨true, some (pathName p), r.asset_id⟩ := by
  unfold upload_to_release at h
  cases htb : tryBody env p with
  | error e =>
    rw [htb] at h
    cases e with
    | requestException =>
      injection h with h
      exact Or.inl h.symm
    | keyError => injection h
    | typeError => injection h
    | attributeError => injection h
  | ok r' =>
    rw [htb] at h
    injection h with h
    subst h
    exact tryBody_ok_shape env p r' htb

theorem upload_ok_name (env : FileEnv) (p : String) (r : UploadResult)
    (h : upload_to_release env p = .ok r) (hs : r.success = true) :
    r = ⟨true, some (pathName p), r.asset_id⟩ := by
  rcases upload_ok_shape env p r h with h' | h'
  · rw [h'] at hs
    cases hs
  · exact h'

theorem entryOfTask_isSome (i : Nat) (t : String × FileEnv) :
    (entryOfTask (i, t)).isSome = taskSucceeds t := by
  unfold entryOfTask taskSucceeds
  cases hex : t.2.pathExists
  · simp [hex]
  · cases hup : upload_to_release t.2 t.1
    · simp [hex, hup]
    · rename_i r
      cases hs : r.success <;> simp [hex, hup, hs]

theorem entryOfTask_some {i : Nat} {t : String × FileEnv} {e : MappingEntry}
    (h : entryOfTask (i, t) = some e) :
    e.index = i ∧ t.2.pathExists = true ∧
      upload_to_release t.2 t.1 = .ok ⟨true, e.original_name, e.asset_id⟩ := by
  unfold entryOfTask at h
  split at h
  · rename_i hex
    split at h
    · rename_i r hup
      split at h
      · rename_i hs
        injection h with h
        subst h
        refine ⟨rfl, hex, ?_⟩
        rw [hup]
        congr 1
        cases r
        simp_all
      · injection h
    · injection h
  · injection h

theorem mappingSpec_cons (idx : Nat) (t : String × FileEnv) (ts : List (String × FileEnv)) :
    mappingSpec idx (t :: ts) =
      match entryOfTask (idx, t) with
      | some e => e :: mappingSpec (idx + 1) ts
      | none => mappingSpec (idx + 1) ts := by
  unfold mappingSpec
  rw [List.enumFrom_cons, List.filterMap_cons]
  cases entryOfTask (idx, t) <;> rfl

theorem mappingSpec_sound (ts : List (String × FileEnv)) :
    ∀ idx e, e ∈ mappingSpec idx ts →
      idx ≤ e.index ∧ e.index < idx + ts.length ∧
      ∃ t, ts[e.index - idx]? = some t ∧ t.2.pathExists = true ∧
        upload_to_release t.2 t.1 = .ok ⟨true, some (pathName t.1), e.asset_id⟩ ∧
        e.original_name = some (pathName t.1) := by
  induction ts with
  | nil =>
    intro idx e he
    simp [mappingSpec] at he
  | cons t ts ih =>
    intro idx e he
    rw [mappingSpec_cons] at he
    cases hent : entryOfTask (idx, t) with
    | none =>
      rw [hent] at he
      obtain ⟨h1, h2, t', hget, hrest⟩ := ih (idx + 1) e he
      refine ⟨by omega, by simp only [List.length_cons]; omega, t', ?_, hrest⟩
      have hidx : e.index - idx = (e.index - (idx + 1)) + 1 := by omega
      rw [hidx, List.getElem?_cons_succ]
      exact hget
    | some e0 =>
      rw [hent] at he
      rcases List.mem_cons.mp he with rfl | he'
      · obtain ⟨hidx, hex, hup⟩ := entryOfTask_some hent
        have hname := upload_ok_name t.2 t.1 ⟨true, e.original_name, e.asset_id⟩ hup rfl
        have hon : e.original_name = some (pathName t.1) := by
          have := congrArg UploadResult.original_name hname
          simpa using this
        refine ⟨by omega, by simp only [List.length_cons]; omega, t, ?_, hex, ?_, hon⟩
        · rw [hidx]
          simp
        · rw [hup, hon]
      · obtain ⟨h1, h2, t', hget, hrest⟩ := ih (idx + 1) e he'
        refine ⟨by omega, by simp only [List.length_cons]; omega, t', ?_, hrest⟩
        have hidx : e.index - idx = (e.index - (idx + 1)) + 1 := by omega
        rw [hidx, List.getElem?_cons_succ]
        exact hget

theorem mappingSpec_length (ts : List (String × FileEnv)) :
    ∀ idx, (mappingSpec idx ts).length = ts.countP taskSucceeds := by
  induction ts with
  | nil => intro idx; rfl
  | cons t ts ih =>
    intro idx
    rw [mappingSpec_cons, List.countP_cons]
    cases hent : entryOfTask (idx, t) with
    | none =>
      have hsucc : taskSucceeds t = false := by
        rw [← entryOfTask_isSome idx t, hent]
        rfl
      rw [hsucc]
      simp [ih (idx + 1)]
    | some e0 =>
      have hsucc : taskSucceeds t = true := by
        rw [← entryOfTask_isSome idx t, hent]
        rfl
      rw [hsucc]
      simp [ih (idx + 1)]

theorem mappingSpec_pairwise (ts : List (String × FileEnv)) :
    ∀ idx, (mappingSpec idx ts).Pairwise (fun a b => a.index < b.index) := by
  induction ts with
  | nil => intro idx; exact List.Pairwise.nil
  | cons t ts ih =>
    intro idx
    rw [mappingSpec_cons]
    cases hent : entryOfTask (idx, t) with
    | none => exact ih (idx + 1)
    | some e0 =>
      refine List.Pairwise.cons ?_ (ih (idx + 1))
      intro e' he'
      have hidx0 : e0.index = idx := (entryOfTask_some hent).1
      have := (mappingSpec_sound ts (idx + 1) e' he').1
      omega

theorem loopStep_ok_noraise {idx : Nat} {st : LoopState} {t : String × FileEnv}
    {st1 : LoopState} (h : loopStep idx st t = .ok st1) : taskRaises t = false := by
  cases hex : t.2.pathExists
  · simp [taskRaises, hex]
  · cases hup : upload_to_release t.2 t.1 with
    | error e =>
      exfalso
      simp [loopStep, hex, hup] at h
    | ok r => simp [taskRaises, hex, hup]

theorem runLoop_eq_spec (ts : List (String × FileEnv)) :
    ∀ idx st, (∀ t ∈ ts, taskRaises t = false) →
      runLoop idx st ts = .ok (runSpec idx st ts) := by
  induction ts with
  | nil =>
    intro idx st _
    rw [runLoop]
    congr 1
    simp [runSpec, mappingSpec]
  | cons t ts ih =>
    intro idx st hnr
    have hnrt := hnr t (List.mem_cons_self t ts)
    have hnrts : ∀ x ∈ ts, taskRaises x = false := fun x hx => hnr x (List.mem_cons_of_mem t hx)
    cases hex : t.2.pathExists with
    | false =>
      have hstep : loopStep idx st t = .ok { st with fail_count := st.fail_count + 1 } := by
        simp [loopStep, hex]
      have hsucc : taskSucceeds t = false := by simp [taskSucceeds, hex]
      have hent : entryOfTask (idx, t) = none := by simp [entryOfTask, hex]
      have key := ih (idx + 1) { st with fail_count := st.fail_count + 1 } hnrts
      have hstate : runSpec (idx + 1) { st with fail_count := st.fail_count + 1 } ts
          = runSpec idx st (t :: ts) := by
        simp only [runSpec, List.countP_cons, mappingSpec_cons, hent, hsucc, hex]
        simp [LoopState.mk.injEq, List.append_assoc] <;> omega
      rw [runLoop, hstep]
      exact key.trans (congrArg Except.ok hstate)
    | true =>
      cases hup : upload_to_release t.2 t.1 with
      | error e =>
        exfalso
        simp [taskRaises, hex, hup] at hnrt
      | ok r =>
        cases hrr : releaseResolved t.2 with
        | false =>
          cases hs : r.success with
          | false =>
            have hstep : loopStep idx st t = .ok
                ⟨st.success_count, st.fail_count + 1, st.filename_mapping,
                  st.getCount + 1, st.postCount⟩ := by
              simp [loopStep, hex, hup, hs, hrr]
            have hsucc : taskSucceeds t = false := by simp [taskSucceeds, hex, hup, hs]
            have hent : entryOfTask (idx, t) = none := by simp [entryOfTask, hex, hup, hs]
            have key := ih (idx + 1)
              ⟨st.success_count, st.fail_count + 1, st.filename_mapping,
                st.getCount + 1, st.postCount⟩ hnrts
            have hstate : runSpec (idx + 1)
                ⟨st.success_count, st.fail_count + 1, st.filename_mapping,
                  st.getCount + 1, st.postCount⟩ ts = runSpec idx st (t :: ts) := by
              simp only [runSpec, List.countP_cons, mappingSpec_cons, hent, hsucc, hex, hrr]
              simp [LoopState.mk.injEq, List.append_assoc] <;> omega
            rw [runLoop, hstep]
            exact key.trans (congrArg Except.ok hstate)
          | true =>
            have hstep : loopStep idx st t = .ok
                ⟨st.success_count + 1, st.fail_count,
                  st.filename_mapping ++ [⟨idx, r.original_name, r.asset_id⟩],
                  st.getCount + 1, st.postCount⟩ := by
              simp [loopStep, hex, hup, hs, hrr]
            have hsucc : taskSucceeds t = true := by simp [taskSucceeds, hex, hup, hs]
            have hent : entryOfTask (idx, t) = some ⟨idx, r.original_name, r.asset_id⟩ := by
              simp [entryOfTask, hex, hup, hs]
            have key := ih (idx + 1)
              ⟨st.success_count + 1, st.fail_count,
                st.filename_mapping ++ [⟨idx, r.original_name, r.asset_id⟩],
                st.getCount + 1, st.postCount⟩ hnrts
            have hstate : runSpec (idx + 1)
                ⟨st.success_count + 1, st.fail_count,
                  st.filename_mapping ++ [⟨idx, r.original_name, r.asset_id⟩],
                  st.getCount + 1, st.postCount⟩ ts = runSpec idx st (t :: ts) := by
              simp only [runSpec, List.countP_cons, mappingSpec_cons, hent, hsucc, hex, hrr]
              simp [LoopState.mk.injEq, List.append_assoc] <;> omega
            rw [runLoop, hstep]
            exact key.trans (congrArg Except.ok hstate)
        | true =>
          cases hs : r.success with
          | false =>
            have hstep : loopStep idx st t = .ok
                ⟨st.success_count, st.fail_count + 1, st.filename_mapping,
                  st.getCount + 1, st.postCount + 1⟩ := by
              simp [loopStep, hex, hup, hs, hrr]
            have hsucc : taskSucceeds t = false := by simp [taskSucceeds, hex, hup, hs]
            have hent : entryOfTask (idx, t) = none := by simp [entryOfTask, hex, hup, hs]
            have key := ih (idx + 1)
              ⟨st.success_count, st.fail_count + 1, st.filename_mapping,
                st.getCount + 1, st.postCount + 1⟩ hnrts
            have hstate : runSpec (idx + 1)
                ⟨st.success_count, st.fail_count + 1, st.filename_mapping,
                  st.getCount + 1, st.postCount + 1⟩ ts = runSpec idx st (t :: ts) := by
              simp only [runSpec, List.countP_cons, mappingSpec_cons, hent, hsucc, hex, hrr]
              simp [LoopState.mk.injEq, List.append_assoc] <;> omega
            rw [runLoop, hstep]
            exact key.trans (congrArg Except.ok hstate)
          | true =>
            have hstep : loopStep idx st t = .ok
                ⟨st.success_count + 1, st.fail_count,
                  st.filename_mapping ++ [⟨idx, r.original_name, r.asset_id⟩],
                  st.getCount + 1, st.postCount + 1⟩ := by
              simp [loopStep, hex, hup, hs, hrr]
            have hsucc : taskSucceeds t = true := by simp [taskSucceeds, hex, hup, hs]
            have hent : entryOfTask (idx, t) = some ⟨idx, r.original_name, r.asset_id⟩ := by
              simp [entryOfTask, hex, hup, hs]
            have key := ih (idx + 1)
              ⟨st.success_count + 1, st.fail_count,
                st.filename_mapping ++ [⟨idx, r.original_name, r.asset_id⟩],
                st.getCount + 1, st.postCount + 1⟩ hnrts
            have hstate : runSpec (idx + 1)
                ⟨st.success_count + 1, st.fail_count,
                  st.filename_mapping ++ [⟨idx, r.original_name, r.asset_id⟩],
                  st.getCount + 1, st.postCount + 1⟩ ts = runSpec idx st (t :: ts) := by
              simp only [runSpec, List.countP_cons, mappingSpec_cons, hent, hsucc, hex, hrr]
              simp [LoopState.mk.injEq, List.append_assoc] <;> omega
            rw [runLoop, hstep]
            exact key.trans (congrArg Except.ok hstate)

theorem runLoop_ok_noraise (ts : List (String × FileEnv)) :
    ∀ idx st st', runLoop idx st ts = .ok st' → ∀ t ∈ ts, taskRaises t = false := by
  induction ts with
  | nil =>
    intro idx st st' _ t ht
    exact absurd ht (List.not_mem_nil t)
  | cons t0 ts ih =>
    intro idx st st' h x hx
    rw [runLoop] at h
    cases hstep : loopStep idx st t0 with
    | error e =>
      rw [hstep] at h
      exact Except.noConfusion
        (h : (Except.error e : Except (PyExc × LoopState) LoopState) = .ok st')
    | ok st1 =>
      rw [hstep] at h
      have h' : runLoop (idx + 1) st1 ts = .ok st' := h
      rcases List.mem_cons.mp hx with rfl | hx'
      · exact loopStep_ok_noraise hstep
      · exact ih (idx + 1) st1 st' h' x hx'

theorem runLoop_ok_eq {ts : List (String × FileEnv)} {idx : Nat} {st st' : LoopState}
    (h : runLoop idx st ts = .ok st') : st' = runSpec idx st ts := by
  have hnr := runLoop_ok_noraise ts idx st st' h
  have hspec := runLoop_eq_spec ts idx st hnr
  rw [hspec] at h
  injection h with h
  exact h.symm

theorem countP_add_countP_not {α : Type} (p : α → Bool) (l : List α) :
    l.countP p + l.countP (fun a => !p a) = l.length := by
  induction l with
  | nil => rfl
  | cons a l ih =>
    rw [List.countP_cons, List.countP_cons, List.length_cons]
    cases ha : p a <;> simp [ha] <;> omega

theorem pyMain_completed {argv : List String} {envs : List FileEnv} {st : LoopState}
    (h : pyMain argv envs = .completed st) :
    st = runSpec 0 initState ((argv.drop 5).zip envs) := by
  unfold pyMain at h
  split at h
  · exact RunResult.noConfusion h
  · split at h
    · exact RunResult.noConfusion h
    · rename_i st0 hr
      injection h with h
      subst h
      exact runLoop_ok_eq hr

/-! ### The claims -/

/-- Claim C1, counterexample: with two input files where the first file's
release lookup returns status 200 whose parsed body lacks the `upload_url`
field, the run aborts with an uncaught `KeyError` (locals still at
`success_count = 0, fail_count = 0`); the second path is never processed, so a
200 release response lacking the upload-URL field does abort the run, contrary
to the claim. -/
theorem C1_counterexample :
    pyMain ["prog", "tok", "own", "repo", "v1", "a.txt", "b.txt"]
      [missingUploadUrlEnv, goodEnv] = .aborted .keyError ⟨0, 0, [], 1, 0⟩ := rfl

/-- Claim C1 (corrected): per-file errors are isolated — as long as no
iteration raises an exception the `except` clause does not catch (uncaught
`KeyError`/`TypeError`/`AttributeError` from a 200 release response whose
parsed body lacks a string `upload_url`, or a 2xx upload response whose parsed
body is not an object), the loop completes and processes every input path;
missing files, non-200 release lookups, unparseable bodies, non-2xx upload
statuses and transport exceptions are all isolated per-file failures. -/
theorem C1_per_file_errors_isolated (argv : List String) (envs : List FileEnv)
    (hlen : 5 ≤ argv.length)
    (hnr : ∀ t ∈ (argv.drop 5).zip envs, taskRaises t = false) :
    pyMain argv envs = .completed (runSpec 0 initState ((argv.drop 5).zip envs)) := by
  unfold pyMain
  rw [if_neg (by omega), runLoop_eq_spec _ 0 initState hnr]

/-- Witness for C1: a run whose first file fails (404 release lookup) and
whose second file succeeds completes the loop over both files. -/
theorem C1_witness :
    5 ≤ (["prog", "tok", "own", "repo", "v1", "a.txt", "b.txt"] : List String).length ∧
    (∀ t ∈ (["prog", "tok", "own", "repo", "v1", "a.txt", "b.txt"].drop 5).zip
        [notFoundEnv, goodEnv], taskRaises t = false) ∧
    pyMain ["prog", "tok", "own", "repo", "v1", "a.txt", "b.txt"] [notFoundEnv, goodEnv] =
      .completed (runSpec 0 initState
        ((["prog", "tok", "own", "repo", "v1", "a.txt", "b.txt"].drop 5).zip
          [notFoundEnv, goodEnv])) :=
  ⟨by norm_num, by decide,
    C1_per_file_errors_isolated _ _ (by norm_num) (by decide)⟩

/-- Claim C2, counterexample: the invocation `prog tok own repo v1` has only 4
arguments after the program name — fewer than 5 — yet the argument-count check
passes (`len(sys.argv) < 5` counts the program name), no usage message is
printed, and the process exits 0. -/
theorem C2_counterexample :
    pyMain ["prog", "tok", "own", "repo", "v1"] [] = .completed initState ∧
    exitCode (pyMain ["prog", "tok", "own", "repo", "v1"] []) = 0 := ⟨rfl, rfl⟩

/-- Claim C2 (corrected): the check is `len(sys.argv) < 5` with `sys.argv[0]`
being the program name, so the usage message and exit status 1 happen exactly
when fewer than 4 arguments follow the program name (token, owner, repo or
tag_name missing); an invocation with those 4 but no file path passes the
check. -/
theorem C2_usage_exit (argv : List String) (envs : List FileEnv)
    (h : argv.length < 5) :
    pyMain argv envs = .usage ∧ exitCode (pyMain argv envs) = 1 := by
  unfold pyMain
  rw [if_pos h]
  exact ⟨rfl, rfl⟩

/-- Witness for C2: a three-element `argv` hits the usage path with exit 1. -/
theorem C2_witness :
    (["prog", "tok", "own"] : List String).length < 5 ∧
    pyMain ["prog", "tok", "own"] [] = .usage ∧
    exitCode (pyMain ["prog", "tok", "own"] []) = 1 := by
  refine ⟨by norm_num, ?_⟩
  exact C2_usage_exit _ _ (by norm_num)

/-- Claim C3, counterexample: a run over two existing files (both succeeding)
issues two GETs to the releases-by-tag endpoint — the instrumentation counter
`getCount` of the completed run is 2, not 1: the release is re-fetched for
every file, not resolved once per run. -/
theorem C3_counterexample :
    pyMain ["prog", "tok", "own", "repo", "v1", "a.txt", "b.txt"] [goodEnv, goodEnv] =
      .completed ⟨2, 0,
        [⟨0, some "a.txt", some (.num 7)⟩, ⟨1, some "b.txt", some (.num 7)⟩], 2, 2⟩ ∧
    (LoopState.mk 2 0
        [⟨0, some "a.txt", some (.num 7)⟩, ⟨1, some "b.txt", some (.num 7)⟩] 2 2).getCount ≠ 1 :=
  ⟨rfl, by decide⟩

/-- Claim C3 (corrected): `upload_to_release` opens a fresh session and
performs its own GET to the releases-by-tag endpoint on every call, and
`__main__` calls it once per existing file — a completed run issues exactly
one release GET per input file that exists (`getCount` equals the number of
existing files), not one per run. -/
theorem C3_release_resolved_per_file (argv : List String) (envs : List FileEnv)
    (st : LoopState) (h : pyMain argv envs = .completed st) :
    st.getCount = ((argv.drop 5).zip envs).countP (fun t => t.2.pathExists) := by
  have hst := pyMain_completed h
  subst hst
  simp [runSpec, initState]

/-- Witness for C3: a completed two-file run whose `getCount` matches the
number of existing files (2). -/
theorem C3_witness :
    pyMain ["prog", "tok", "own", "repo", "v1", "a.txt", "b.txt"] [goodEnv, goodEnv] =
      .completed ⟨2, 0,
        [⟨0, some "a.txt", some (.num 7)⟩, ⟨1, some "b.txt", some (.num 7)⟩], 2, 2⟩ ∧
    (LoopState.mk 2 0
        [⟨0, some "a.txt", some (.num 7)⟩, ⟨1, some "b.txt", some (.num 7)⟩] 2 2).getCount =
      ((["prog", "tok", "own", "repo", "v1", "a.txt", "b.txt"].drop 5).zip
        [goodEnv, goodEnv]).countP (fun t => t.2.pathExists) :=
  ⟨rfl, C3_release_resolved_per_file _ _ _ rfl⟩

/-- Claim C4, counterexample: a single-file run whose release lookup returns
200 without an `upload_url` field aborts with an uncaught `KeyError`; the loop
locals at the abort have `fail_count = 0`, yet the interpreter exits with
status 1 — so "exit status 0 iff fail_count == 0" fails for runs that reach
the loop but abort. -/
theorem C4_counterexample :
    pyMain ["prog", "tok", "own", "repo", "v1", "a.txt"] [missingUploadUrlEnv] =
      .aborted .keyError ⟨0, 0, [], 1, 0⟩ ∧
    (LoopState.mk 0 0 [] 1 0).fail_count = 0 ∧
    exitCode (pyMain ["prog", "tok", "own", "repo", "v1", "a.txt"] [missingUploadUrlEnv]) = 1 :=
  ⟨rfl, rfl, rfl⟩

/-- Claim C4 (corrected): the exit status is 0 exactly when the orchestrator
loop completes without an uncaught exception and `fail_count == 0`; a usage
error exits 1, and a run aborted mid-loop by an uncaught exception exits 1
regardless of the counters. -/
theorem C4_exit_zero_iff (argv : List String) (envs : List FileEnv) :
    exitCode (pyMain argv envs) = 0 ↔
      ∃ st, pyMain argv envs = .completed st ∧ st.fail_count = 0 := by
  cases hr : pyMain argv envs with
  | usage => simp [exitCode]
  | aborted e st => simp [exitCode]
  | completed st =>
    by_cases hf : st.fail_count = 0 <;> simp [exitCode, hf]

/-- Claim C5: each loop iteration increments exactly one of the two counters,
so when the loop completes, `success_count + fail_count` equals the number of
input paths. -/
theorem C5_counters_partition (argv : List String) (envs : List FileEnv)
    (st : LoopState) (hlen : envs.length = (argv.drop 5).length)
    (h : pyMain argv envs = .completed st) :
    st.success_count + st.fail_count = (argv.drop 5).length := by
  have hst := pyMain_completed h
  subst hst
  have h1 := countP_add_countP_not taskSucceeds ((argv.drop 5).zip envs)
  have h2 : ((argv.drop 5).zip envs).length = min (argv.drop 5).length envs.length :=
    List.length_zip ..
  simp only [runSpec, initState, Nat.zero_add]
  omega

/-- Witness for C5: one succeeding file plus one missing file give
`success_count + fail_count = 2` input paths. -/
theorem C5_witness :
    ([goodEnv, missingFileEnv] : List FileEnv).length =
      (["prog", "tok", "own", "repo", "v1", "a.txt", "b.txt"].drop 5).length ∧
    pyMain ["prog", "tok", "own", "repo", "v1", "a.txt", "b.txt"] [goodEnv, missingFileEnv] =
      .completed ⟨1, 1, [⟨0, some "a.txt", some (.num 7)⟩], 1, 1⟩ ∧
    (LoopState.mk 1 1 [⟨0, some "a.txt", some (.num 7)⟩] 1 1).success_count +
        (LoopState.mk 1 1 [⟨0, some "a.txt", some (.num 7)⟩] 1 1).fail_count =
      (["prog", "tok", "own", "repo", "v1", "a.txt", "b.txt"].drop 5).length :=
  ⟨rfl, rfl,
    C5_counters_partition ["prog", "tok", "own", "repo", "v1", "a.txt", "b.txt"]
      [goodEnv, missingFileEnv] ⟨1, 1, [⟨0, some "a.txt", some (.num 7)⟩], 1, 1⟩ rfl rfl⟩

/-- Claim C6: for a run whose loop completes, the emitted mapping payload
Base64-decodes to the JSON array of the mapping records; the array has
`success_count` records, their indices are a subset of `0..N-1` in strictly
increasing (original input) order, and each record holds the zero-based input
index, the original un-encoded filename and the asset id of one succeeded
upload. -/
theorem C6_mapping_payload (argv : List String) (envs : List FileEnv) (st : LoopState)
    (hlen : envs.length = (argv.drop 5).length)
    (h : pyMain argv envs = .completed st)
    (hne : st.filename_mapping ≠ []) :
    MappingPayloadCorrect (argv.drop 5).length ((argv.drop 5).zip envs) st := by
  have hst := pyMain_completed h
  subst hst
  have hz : ((argv.drop 5).zip envs).length = min (argv.drop 5).length envs.length :=
    List.length_zip ..
  refine ⟨b64_roundtrip_str _ (strUtf8_lt _), ?_, ?_, ?_, ?_⟩
  · simp only [runSpec, initState, List.nil_append, Nat.zero_add]
    exact mappingSpec_length _ 0
  · intro e he
    simp only [runSpec, initState, List.nil_append] at he
    have hlt := (mappingSpec_sound _ 0 e he).2.1
    omega
  · simp only [runSpec, initState, List.nil_append]
    exact mappingSpec_pairwise _ 0
  · intro e he
    simp only [runSpec, initState, List.nil_append] at he
    obtain ⟨-, -, t, hget, hex, hok, hon⟩ := mappingSpec_sound _ 0 e he
    refine ⟨t, ?_, hex, hok, hon⟩
    simpa using hget

/-- Witness for C6: a run with a missing first file and a succeeding second
file emits a one-record mapping for index 1 with the original basename and
asset id 7. -/
theorem C6_witness :
    ([missingFileEnv, goodEnv] : List FileEnv).length =
      (["prog", "tok", "own", "repo", "v1", "a.txt", "b.txt"].drop 5).length ∧
    pyMain ["prog", "tok", "own", "repo", "v1", "a.txt", "b.txt"] [missingFileEnv, goodEnv] =
      .completed ⟨1, 1, [⟨1, some "b.txt", some (.num 7)⟩], 1, 1⟩ ∧
    (LoopState.mk 1 1 [⟨1, some "b.txt", some (.num 7)⟩] 1 1).filename_mapping ≠ [] ∧
    MappingPayloadCorrect (["prog", "tok", "own", "repo", "v1", "a.txt", "b.txt"].drop 5).length
      ((["prog", "tok", "own", "repo", "v1", "a.txt", "b.txt"].drop 5).zip
        [missingFileEnv, goodEnv])
      ⟨1, 1, [⟨1, some "b.txt", some (.num 7)⟩], 1, 1⟩ :=
  ⟨rfl, rfl, by simp,
    C6_mapping_payload ["prog", "tok", "own", "repo", "v1", "a.txt", "b.txt"]
      [missingFileEnv, goodEnv] ⟨1, 1, [⟨1, some "b.txt", some (.num 7)⟩], 1, 1⟩
      rfl rfl (by simp)⟩

/-- Claim C7: the percent-encoder used for the `?name=` query parameter
(`urllib.parse.quote` with `safe=''`) composed with percent-decoding is the
identity on every filename, including multi-byte non-ASCII ones. -/
theorem C7_quote_unquote_roundtrip (s : String) : unquote (quote s) = some s :=
  unquote_quote s

theorem retryDeliver_cons (fl : List Nat) (fuel : Nat) (s : Nat) (rest : List Nat) :
    retryDeliver fl fuel (s :: rest) =
      if s ∈ fl then
        match fuel with
        | 0 => none
        | f + 1 => retryDeliver fl f rest
      else some s := rfl

theorem retryDeliver_forced (fl : List Nat) (h200 : 200 ∉ fl) :
    ∀ (bad : List Nat) (fuel : Nat), bad.length ≤ fuel → (∀ s ∈ bad, s ∈ fl) →
      retryDeliver fl fuel (bad ++ [200]) = some 200 := by
  intro bad
  induction bad with
  | nil =>
    intro fuel _ _
    simp only [List.nil_append]
    rw [retryDeliver_cons, if_neg h200]
  | cons s bad ih =>
    intro fuel hlen hmem
    cases fuel with
    | zero => simp at hlen
    | succ f =>
      simp only [List.cons_append]
      rw [retryDeliver_cons, if_pos (hmem s (List.mem_cons_self s bad))]
      exact ih f (by simp at hlen; omega) (fun x hx => hmem x (List.mem_cons_of_mem s hx))

/-- Claim C8: under the session's retry configuration (5 retries, backoff
factor 1, forcelist {429, 500, 502, 503, 504}), a request answered with fewer
than 5 forcelisted statuses followed by a 200 yields the final 200 to the
caller, and a non-retryable status such as 404 is returned immediately as a
normal response. -/
theorem C8_retry_delivers (bad : List Nat)
    (hmem : ∀ s ∈ bad, s ∈ sessionRetryConfig.status_forcelist)
    (hlen : bad.length < sessionRetryConfig.total) :
    retryDeliver sessionRetryConfig.status_forcelist sessionRetryConfig.total
        (bad ++ [200]) = some 200 ∧
    ∀ rest : List Nat,
      retryDeliver sessionRetryConfig.status_forcelist sessionRetryConfig.total
        (404 :: rest) = some 404 := by
  constructor
  · exact retryDeliver_forced _ (by decide) bad sessionRetryConfig.total (by omega) hmem
  · intro rest
    rw [retryDeliver_cons, if_neg (by decide)]

/-- Witness for C8: two retryable statuses (429, 503) then a 200 deliver the
200; a 404 is returned immediately. -/
theorem C8_witness :
    (∀ s ∈ ([429, 503] : List Nat), s ∈ sessionRetryConfig.status_forcelist) ∧
    ([429, 503] : List Nat).length < sessionRetryConfig.total ∧
    (retryDeliver sessionRetryConfig.status_forcelist sessionRetryConfig.total
        ([429, 503] ++ [200]) = some 200 ∧
      ∀ rest : List Nat,
        retryDeliver sessionRetryConfig.status_forcelist sessionRetryConfig.total
          (404 :: rest) = some 404) :=
  ⟨by decide, by decide, C8_retry_delivers [429, 503] (by decide) (by decide)⟩

/-- Claim C9: an upload answered 200/201 whose JSON object body has no `id`
key is still a success: `upload_to_release` returns the success triple with
the original basename and a `None` asset id, and the loop iteration records a
mapping entry whose `asset_id` is null. -/
theorem C9_missing_id_success (p u : String) (env : FileEnv) (rel urel : Response)
    (relJ : Json) (fs : List (String × Json))
    (h1 : env.pathExists = true)
    (h2 : env.releaseResponse = .ok rel) (h3 : rel.status = 200)
    (h4 : rel.jsonBody = some relJ)
    (h5 : pyGetItem relJ "upload_url" = .ok (.str u))
    (h6 : env.uploadResponse = .ok urel)
    (h7 : urel.status = 200 ∨ urel.status = 201)
    (h8 : urel.jsonBody = some (.obj fs))
    (h9 : fs.lookup "id" = none) :
    upload_to_release env p = .ok ⟨true, some (pathName p), none⟩ ∧
    ∀ idx st, loopStep idx st (p, env) = .ok
      ⟨st.success_count + 1, st.fail_count,
        st.filename_mapping ++ [⟨idx, some (pathName p), none⟩],
        st.getCount + 1, st.postCount + 1⟩ := by
  have hup : upload_to_release env p = .ok ⟨true, some (pathName p), none⟩ := by
    simp only [upload_to_release, tryBody, h2, h3, h4, h5, h6, h8, pySplitBrace]
    rcases h7 with h7 | h7 <;> simp [h7, pyDictGet, h9]
  have hrr : releaseResolved env = true := by
    simp [releaseResolved, h2, h3, h4, h5]
  refine ⟨hup, fun idx st => ?_⟩
  simp [loopStep, h1, hup, hrr]

/-- Witness for C9: a 201 upload response `{"ok": true}` (no `id`) yields the
success triple with a null asset id, and the loop appends the corresponding
record. -/
theorem C9_witness :
    noIdEnv.pathExists = true ∧
    noIdEnv.releaseResponse = .ok ⟨200, some (.obj [("upload_url", .str "u")]), ""⟩ ∧
    (Response.mk 200 (some (.obj [("upload_url", .str "u")])) "").status = 200 ∧
    (Response.mk 200 (some (.obj [("upload_url", .str "u")])) "").jsonBody =
      some (.obj [("upload_url", .str "u")]) ∧
    pyGetItem (.obj [("upload_url", .str "u")]) "upload_url" = .ok (.str "u") ∧
    noIdEnv.uploadResponse = .ok ⟨201, some (.obj [("ok", .bool true)]), ""⟩ ∧
    ((Response.mk 201 (some (.obj [("ok", .bool true)])) "").status = 200 ∨
      (Response.mk 201 (some (.obj [("ok", .bool true)])) "").status = 201) ∧
    (Response.mk 201 (some (.obj [("ok", .bool true)])) "").jsonBody =
      some (.obj [("ok", .bool true)]) ∧
    ([("ok", Json.bool true)] : List (String × Json)).lookup "id" = none ∧
    (upload_to_release noIdEnv "d/a.txt" = .ok ⟨true, some (pathName "d/a.txt"), none⟩ ∧
      ∀ idx st, loopStep idx st ("d/a.txt", noIdEnv) = .ok
        ⟨st.success_count + 1, st.fail_count,
          st.filename_mapping ++ [⟨idx, some (pathName "d/a.txt"), none⟩],
          st.getCount + 1, st.postCount + 1⟩) :=
  ⟨rfl, rfl, rfl, rfl, rfl, rfl, Or.inr rfl, rfl, rfl,
    C9_missing_id_success "d/a.txt" "u" noIdEnv
      ⟨200, some (.obj [("upload_url", .str "u")]), ""⟩
      ⟨201, some (.obj [("ok", .bool true)]), ""⟩
      (.obj [("upload_url", .str "u")]) [("ok", .bool true)]
      rfl rfl rfl rfl rfl rfl (Or.inr rfl) rfl rfl⟩

/-- Claim C10: an invocation with exactly 4 arguments after the program name
(empty file list) passes the argument-count check, performs no network calls
(both request counters are 0), prints the summary reporting 0 succeeded and 0
failed with no mapping block, and exits 0. -/
theorem C10_empty_file_list (argv : List String) (envs : List FileEnv)
    (h5 : argv.length = 5) :
    pyMain argv envs = .completed initState ∧
    exitCode (pyMain argv envs) = 0 ∧
    initState.getCount = 0 ∧ initState.postCount = 0 ∧
    tailOutput initState = ["\n📊 Results: 0 succeeded, 0 failed"] := by
  have hdrop : argv.drop 5 = [] := by
    have hlen : (argv.drop 5).length = 0 := by simp [h5]
    exact List.eq_nil_of_length_eq_zero hlen
  have h1 : pyMain argv envs = .completed initState := by
    unfold pyMain
    rw [if_neg (by omega), hdrop]
    rfl
  refine ⟨h1, ?_, rfl, rfl, ?_⟩
  · rw [h1]
    rfl
  · rfl

/-- Witness for C10: `prog tok own repo v1` with no files completes with all
counters 0, exit status 0, and only the summary line after the loop. -/
theorem C10_witness :
    (["prog", "tok", "own", "repo", "v1"] : List String).length = 5 ∧
    (pyMain ["prog", "tok", "own", "repo", "v1"] [] = .completed initState ∧
      exitCode (pyMain ["prog", "tok", "own", "repo", "v1"] []) = 0 ∧
      initState.getCount = 0 ∧ initState.postCount = 0 ∧
      tailOutput initState = ["\n📊 Results: 0 succeeded, 0 failed"]) :=
  ⟨rfl, C10_empty_file_list ["prog", "tok", "own", "repo", "v1"] [] rfl⟩

end NFU
